import Mathlib

/-!
Verification development for the flopy SUB and UPW package adapters
(src/flopy/modflow/mfsub.py and src/flopy/modflow/mfupw.py).

The two adapters are shallowly embedded below.  Text streams are modelled
as lists of records; the generic 2D grid-array codec (util_2d / util_3d,
an external collaborator not part of this repository slice) is treated as
a delegated block: one record per grid array, carrying a diagnostic label,
a layer index, and an abstract array identifier.  Python integers are Int,
Python floats are modelled as exact decimals (PyFloat), which is faithful
for the decimal literals the adapters read and print.
-/

/-- Result monad for fallible Python code: `.error` carries a message
naming the Python exception being modelled. -/
abbrev Ex (α : Type) := Except String α

/-- Explicit bind for `Ex`, used so that proofs can case on each step. -/
def exb {α β : Type} : Ex α → (α → Ex β) → Ex β
  | .error e, _ => .error e
  | .ok a, f => f a

@[simp] theorem exb_ok {α β : Type} (a : α) (f : α → Ex β) : exb (.ok a) f = f a := rfl

@[simp] theorem exb_error {α β : Type} (e : String) (f : α → Ex β) :
    exb (.error e) f = (.error e : Ex β) := rfl

/-- Is the result a success? -/
def exOk {α : Type} : Ex α → Bool
  | .ok _ => true
  | .error _ => false

@[simp] theorem exOk_ok {α : Type} (a : α) : exOk (.ok a) = true := rfl

@[simp] theorem exOk_error {α : Type} (e : String) : exOk (.error e : Ex α) = false := rfl

/-- List lookup that raises the Python IndexError on a missing index. -/
def lget {α : Type} (xs : List α) (k : Nat) : Ex α :=
  match xs.get? k with
  | some v => .ok v
  | none => .error "IndexError: list index out of range"

/-- Whitespace test used by the Python str.split tokenizer. -/
def isWs (c : Char) : Bool :=
  c = ' ' || c = '\t' || c = '\n' || c = '\r'

/-- Split a character list into maximal non-whitespace runs. -/
def tokenSplit : List Char → List Char → List (List Char)
  | [], acc => if acc.isEmpty then [] else [acc.reverse]
  | c :: cs, acc =>
    if isWs c then
      if acc.isEmpty then tokenSplit cs [] else acc.reverse :: tokenSplit cs []
    else tokenSplit cs (c :: acc)

/-- The Python line.strip().split() tokenizer: whitespace-delimited,
empty tokens dropped. -/
def pySplit (s : String) : List String :=
  (tokenSplit s.toList []).map (fun l => String.mk l)

/-- Digit value of a character, if it is a decimal digit. -/
def digitVal (c : Char) : Option Nat :=
  if c.isDigit then some (c.toNat - 48) else none

/-- Parse a nonempty all-digit character list as a natural number. -/
def digitsToNat : List Char → Option Nat
  | [] => none
  | cs => go cs 0
where
  go : List Char → Nat → Option Nat
    | [], acc => some acc
    | c :: cs, acc =>
      match digitVal c with
      | some d => go cs (acc * 10 + d)
      | none => none

/-- The Python int(str) conversion: optional sign then decimal digits;
anything else (for example a token containing a dot) raises ValueError,
modelled as `none`. -/
def pyInt (s : String) : Option Int :=
  match s.toList with
  | '-' :: cs => (digitsToNat cs).map (fun n => -(n : Int))
  | '+' :: cs => (digitsToNat cs).map (fun n => (n : Int))
  | cs => (digitsToNat cs).map (fun n => (n : Int))

/-- Exact decimal model of a Python float: the value is m / 10 ^ e.
Faithful for the decimal literals read and printed by the adapters. -/
structure PyFloat where
  m : Int
  e : Nat
deriving Repr, DecidableEq

/-- Normalize a decimal by removing trailing zero digits. -/
def pfNorm : Int → Nat → PyFloat
  | m, 0 => ⟨m, 0⟩
  | m, e + 1 => if m % 10 = 0 then pfNorm (m / 10) e else ⟨m, e + 1⟩

/-- Left-pad a digit string with zeros to the given length. -/
def zeroPad (n : Nat) (s : String) : String :=
  String.mk (List.replicate (n - s.length) '0') ++ s

/-- The Python str(float) rendering for decimals in positional notation:
always shows at least one fractional digit (str(200.0) is the five
characters 2 0 0 . 0). -/
def PyFloat.pyrepr (x : PyFloat) : String :=
  let y := pfNorm x.m x.e
  if y.e = 0 then toString y.m ++ ".0"
  else
    let sign := if y.m < 0 then "-" else ""
    let n := y.m.natAbs
    let ip := n / 10 ^ y.e
    let fp := n % 10 ^ y.e
    sign ++ toString ip ++ "." ++ zeroPad y.e (toString fp)

/-- Strict comparison of two exact decimals. -/
def PyFloat.ltv (x y : PyFloat) : Bool :=
  decide (x.m * (10 : Int) ^ y.e < y.m * (10 : Int) ^ x.e)

/-- Truncating float-to-int cast (rounds toward zero), as numpy does when
a float array is coerced to an int dtype. -/
def PyFloat.toI (x : PyFloat) : Int :=
  Int.tdiv x.m ((10 : Int) ^ x.e)

/-- Split a character list at an optional exponent marker. -/
def splitExp : List Char → (List Char × Option (List Char))
  | [] => ([], none)
  | c :: cs => if c = 'e' || c = 'E' then ([], some cs) else
      let (pre, ex) := splitExp cs
      (c :: pre, ex)

/-- Parse an optionally signed digit run. -/
def parseSigned (cs : List Char) : Option Int :=
  match cs with
  | '-' :: rest => (digitsToNat rest).map (fun n => -(n : Int))
  | '+' :: rest => (digitsToNat rest).map (fun n => (n : Int))
  | rest => (digitsToNat rest).map (fun n => (n : Int))

/-- Parse the mantissa part digits.digits (either side may be empty but
not both), returning the scaled integer and fractional length. -/
def parseMantissa (cs : List Char) : Option (Int × Nat) :=
  let intDigits := cs.takeWhile (fun c => c.isDigit)
  let rest := cs.dropWhile (fun c => c.isDigit)
  match rest with
  | [] => (digitsToNat intDigits).map (fun n => ((n : Int), 0))
  | '.' :: frac =>
    if frac.all (fun c => c.isDigit) then
      if intDigits.isEmpty && frac.isEmpty then none
      else
        let ipart := (digitsToNat intDigits).getD 0
        let fpart := (digitsToNat frac).getD 0
        some ((ipart * 10 ^ frac.length + fpart : Int), frac.length)
    else none
  | _ => none

/-- The Python float(str) conversion for finite decimal tokens with an
optional exponent part, modelled as an exact decimal.  Raises ValueError
(`none`) on malformed tokens. -/
def pyFloat (s : String) : Option PyFloat :=
  let cs := s.toList
  let (body, sign) :=
    match cs with
    | '-' :: rest => (rest, (-1 : Int))
    | '+' :: rest => (rest, (1 : Int))
    | rest => (rest, (1 : Int))
  let (mant, expPart) := splitExp body
  match parseMantissa mant with
  | none => none
  | some (m, e) =>
    match expPart with
    | none => some ⟨sign * m, e⟩
    | some ecs =>
      match parseSigned ecs with
      | none => none
      | some p =>
        if p ≥ 0 then
          let p' := p.toNat
          if p' ≥ e then some ⟨sign * m * 10 ^ (p' - e), 0⟩
          else some ⟨sign * m, e - p'⟩
        else some ⟨sign * m, e + (-p).toNat⟩

/-- Token lookup followed by the Python int conversion. -/
def pyIntAt (ts : List String) (i : Nat) : Ex Int :=
  match ts.get? i with
  | none => .error "IndexError: list index out of range"
  | some s =>
    match pyInt s with
    | some v => .ok v
    | none => .error ("ValueError: invalid literal for int with base 10: " ++ s)

/-- Token lookup followed by the Python float conversion. -/
def pyFloatAt (ts : List String) (i : Nat) : Ex PyFloat :=
  match ts.get? i with
  | none => .error "IndexError: list index out of range"
  | some s =>
    match pyFloat s with
    | some v => .ok v
    | none => .error ("ValueError: could not convert string to float: " ++ s)

/-- A piece of output produced by one f.write call: either literal text
or a delegated grid-array block (get_file_entry of a util array), tagged
with the array label and the loop index it was written from. -/
inductive Chunk
  | txt (s : String)
  | arr (label : String) (idx : Nat) (a : Nat)
deriving Repr, DecidableEq

/-- Does a chunk carry a delegated grid-array block? -/
def Chunk.isArr : Chunk → Bool
  | .arr _ _ _ => true
  | .txt _ => false

/-- A record of the on-disk file as seen by the loader: a text line
(without its newline) or a delegated grid-array block. -/
inductive Rec
  | line (s : String)
  | arr (label : String) (idx : Nat) (a : Nat)
deriving Repr, DecidableEq

/-- Split characters at newlines: complete lines plus the pending tail.
The accumulator holds the reversed characters of the unfinished line. -/
def nlSplit : List Char → List Char → List (List Char) × List Char
  | [], acc => ([], acc)
  | c :: cs, acc =>
    if c = '\n' then
      let (ls, p) := nlSplit cs []
      (acc.reverse :: ls, p)
    else nlSplit cs (c :: acc)

/-- Assemble the chunks written by write_file into file records, joining
consecutive text chunks and splitting on newlines (two f.write calls with
no newline between them land on the same line of the file). -/
def assembleGo : List Chunk → List Char → List Rec
  | [], pend => if pend.isEmpty then [] else [Rec.line (String.mk pend.reverse)]
  | Chunk.txt s :: rest, pend =>
    let (ls, pend') := nlSplit s.toList pend
    ls.map (fun l => Rec.line (String.mk l)) ++ assembleGo rest pend'
  | Chunk.arr lab i a :: rest, pend =>
    (if pend.isEmpty then [] else [Rec.line (String.mk pend.reverse)]) ++
      Rec.arr lab i a :: assembleGo rest []

/-- File assembly entry point. -/
def assemble (cs : List Chunk) : List Rec := assembleGo cs []

/-- Pop one text line from the record stream, as f.readline does.  At end
of file Python returns the empty string and the subsequent subscript
line[0] raises IndexError; reading into a delegated array block has no
counterpart in the adapters and is an error. -/
def readLineE : List Rec → Ex (String × List Rec)
  | [] => .error "IndexError: string index out of range"
  | Rec.line s :: rs => .ok (s, rs)
  | Rec.arr _ _ _ :: rs => .error "array block encountered where a text line was expected"

/-- Does the line start with the comment marker? -/
def startsHash (s : String) : Bool :=
  match s.toList with
  | '#' :: _ => true
  | _ => false

/-- Skip leading comment lines (while line[0] == '#') and return the
first non-comment line, the header line. -/
def skipComments : List Rec → Ex (String × List Rec)
  | [] => .error "IndexError: string index out of range"
  | Rec.line s :: rs => if startsHash s then skipComments rs else .ok (s, rs)
  | Rec.arr _ _ _ :: rs => .error "array block encountered where a text line was expected"

/-- Consume one delegated grid-array block, as util_2d.load does.
Modelled from the spec: the external array codec is opaque; it reads one
array block and yields the array. -/
def popArr : List Rec → Ex (Nat × List Rec)
  | Rec.arr _ _ a :: rs => .ok (a, rs)
  | _ => .error "array codec: expected an array block"

/-- Consume n delegated grid-array blocks in order. -/
def popArrs : Nat → List Rec → Ex (List Nat × List Rec)
  | 0, rs => .ok ([], rs)
  | n + 1, rs =>
    exb (popArr rs) fun (a, rs1) =>
    exb (popArrs n rs1) fun (xs, rs2) =>
    .ok (a :: xs, rs2)

/-- Read one line and parse its first n tokens as Python ints.
Modelled from the spec: the read1d helper (an external utility) fills a
length-n integer vector from whitespace-separated tokens; the spec's
layer/system-index lines are single lines of one-based integers, and
trailing annotation tokens are ignored. -/
def read1dInts (n : Nat) (s : String) : Ex (List Int) :=
  let ts := pySplit s
  if ts.length < n then .error "read1d: short read"
  else (ts.take n).mapM (fun t =>
    match pyInt t with
    | some v => .ok v
    | none => .error ("ValueError: invalid literal for int with base 10: " ++ t))

/-! ## SUB package: data model and constructor (ModflowSub.__init__) -/

/-- A constructor argument that Python may receive as None, as a scalar
to broadcast, or as an array (mfsub.py passes each of ln, ldn, rnb, hc,
sfe, sfv, com, dstart, dhc, dcom, dz, nz to util_2d or util_3d). -/
inductive PyVal (α : Type)
  | noneV
  | scalar (v : α)
  | arr (xs : List α)
deriving Repr, DecidableEq

/-- Broadcast a scalar to the declared leading dimension or keep a given
array, as the external util_2d / util_3d constructors do.
Modelled from the spec: the array codec collaborator builds an array of
the declared shape from a scalar or an existing array; building one from
None fails. -/
def utilMk {α : Type} (n : Nat) : PyVal α → Ex (List α)
  | .scalar v => .ok (List.replicate n v)
  | .arr xs => .ok xs
  | .noneV => .error "util array: cannot build an array from None"

/-- The dp argument (material-zone property table): Python may receive
None, a flat list (the documented default [1.e-6, 6.e-6, 6.e-4]), or a
two-dimensional (nmz, 3) array. -/
inductive DpVal
  | noneV
  | flat (xs : List PyFloat)
  | mat (rows : List (List PyFloat))
deriving Repr, DecidableEq

/-- The ids16 argument: None, a one-dimensional list, or a table of rows. -/
inductive Ids16Arg
  | noneA
  | one (xs : List Int)
  | rows (xss : List (List Int))
deriving Repr, DecidableEq

/-- In-memory SUB package model: the fields stored by
ModflowSub.__init__ (mfsub.py lines 211-291).  Array-valued fields are
None (here `none`) exactly when their governing count is nonpositive.
Grid arrays are abstract identifiers, the delegated codec being opaque. -/
structure SubModel where
  heading : String
  isubcb : Int
  isuboc : Int
  idsave : Int
  idrest : Int
  nndb : Int
  ndb : Int
  nmz : Int
  nn : Int
  ac1 : PyFloat
  ac2 : PyFloat
  itmin : Int
  ln : Option (List Int)
  hc : Option (List Nat)
  sfe : Option (List Nat)
  sfv : Option (List Nat)
  com : Option (List Nat)
  ldn : Option (List Int)
  rnb : Option (List Nat)
  dstart : Option (List Nat)
  dhc : Option (List Nat)
  dcom : Option (List Nat)
  dz : Option (List Nat)
  nz : Option (List Nat)
  dp : DpVal
  ids15 : Option (List Int)
  ids16 : Option (List (List Int))
deriving Repr, DecidableEq

/-- Constructor arguments of ModflowSub.__init__ with the documented
default values (mfsub.py lines 181-187). -/
structure SubArgs where
  isubcb : Int := 0
  isuboc : Int := 0
  idsave : Int := 0
  idrest : Int := 0
  nndb : Int := 1
  ndb : Int := 1
  nmz : Int := 1
  nn : Int := 20
  ac1 : PyFloat := ⟨0, 1⟩
  ac2 : PyFloat := ⟨2, 1⟩
  itmin : Int := 5
  ln : PyVal Int := .scalar 0
  ldn : PyVal Int := .scalar 0
  rnb : PyVal Nat := .scalar 0
  hc : PyVal Nat := .scalar 0
  sfe : PyVal Nat := .scalar 0
  sfv : PyVal Nat := .scalar 0
  com : PyVal Nat := .scalar 0
  dp : DpVal := .flat [⟨1, 6⟩, ⟨6, 6⟩, ⟨6, 4⟩]
  dstart : PyVal Nat := .scalar 0
  dhc : PyVal Nat := .scalar 0
  dcom : PyVal Nat := .scalar 0
  dz : PyVal Nat := .scalar 0
  nz : PyVal Nat := .scalar 0
  ids15 : Option (List Int) := none
  ids16 : Ids16Arg := .noneA
deriving Repr

/-- Force every odd position of ids15 to the shared binary subsidence
output unit 2051 (mfsub.py lines 275-276 and 551-553). -/
def remapIds15 (xs : List Int) : List Int :=
  xs.enum.map (fun p => if p.1 % 2 = 1 then 2051 else p.2)

/-- ModflowSub.__init__ (mfsub.py lines 181-294) without the final
add_package registration, which the load wrapper performs on success.
Fails where the Python constructor would raise: building arrays from
None, or reshaping a one-dimensional ids16 via the unbound name numpy
(mfsub.py line 290). -/
def mkSub (nper : Int) (version : String) (a : SubArgs) : Ex SubModel :=
  exb (if a.nndb > 0 then
        exb (utilMk a.nndb.toNat a.ln) fun ln =>
        exb (utilMk a.nndb.toNat a.hc) fun hc =>
        exb (utilMk a.nndb.toNat a.sfe) fun sfe =>
        exb (utilMk a.nndb.toNat a.sfv) fun sfv =>
        exb (utilMk a.nndb.toNat a.com) fun com =>
        .ok (some ln, some hc, some sfe, some sfv, some com)
      else .ok (none, none, none, none, none)) fun noDelay =>
  exb (if a.ndb > 0 then
        exb (utilMk a.ndb.toNat a.ldn) fun ldn =>
        exb (utilMk a.ndb.toNat a.rnb) fun rnb =>
        exb (utilMk a.ndb.toNat a.dstart) fun dstart =>
        exb (utilMk a.ndb.toNat a.dhc) fun dhc =>
        exb (utilMk a.ndb.toNat a.dcom) fun dcom =>
        exb (utilMk a.ndb.toNat a.dz) fun dz =>
        exb (utilMk a.ndb.toNat a.nz) fun nz =>
        .ok (some ldn, some rnb, some dstart, some dhc, some dcom, some dz, some nz)
      else .ok (none, none, none, none, none, none, none)) fun delay =>
  exb (if a.isuboc > 0 then
        let i15 := remapIds15 (match a.ids15 with | some l => l | none => List.replicate 12 0)
        match a.ids16 with
        | .noneA =>
          let row := ((((List.replicate 17 (1 : Int)).set 0 0).set 1 (nper - 1)).set 2 0).set 3 9999
          .ok ((1 : Int), some i15, some [row])
        | .one _ => .error "NameError: name numpy is not defined"
        | .rows [] => .error "NameError: name numpy is not defined"
        | .rows (r :: rs) => .ok (a.isuboc, some i15, some (r :: rs))
      else .ok (a.isuboc, none, none)) fun outc =>
  .ok { heading := "# Subsidence (SUB) package file for " ++ version ++ ", generated by Flopy."
        isubcb := a.isubcb
        isuboc := outc.1
        idsave := a.idsave
        idrest := a.idrest
        nndb := a.nndb
        ndb := a.ndb
        nmz := a.nmz
        nn := a.nn
        ac1 := a.ac1
        ac2 := a.ac2
        itmin := a.itmin
        ln := noDelay.1
        hc := noDelay.2.1
        sfe := noDelay.2.2.1
        sfv := noDelay.2.2.2.1
        com := noDelay.2.2.2.2
        ldn := delay.1
        rnb := delay.2.1
        dstart := delay.2.2.1
        dhc := delay.2.2.2.1
        dcom := delay.2.2.2.2.1
        dz := delay.2.2.2.2.2.1
        nz := delay.2.2.2.2.2.2
        dp := a.dp
        ids15 := outc.2.1
        ids16 := outc.2.2 }

/-! ## SUB package: write_file (mfsub.py lines 299-367) -/

/-- Attribute access self.f.array (or self.f[k]) on a field that is None:
ok when the field is present, otherwise the Python attribute or subscript
error on NoneType. -/
def expectAttr {α : Type} (o : Option α) (nm : String) : Ex α :=
  match o with
  | some v => .ok v
  | none => .error ("AttributeError: NoneType field " ++ nm)

/-- Zero-based to one-based rendering of a layer-assignment value on
write: mfsub.py lines 317 and 321 emit tt + 1 for each stored tt. -/
def layerIdxWrite (vs : List Int) : List Int :=
  vs.map (fun v => v + 1)

/-- One-based to zero-based conversion on load: mfsub.py lines 436 and
442 store the parsed vector minus one. -/
def layerIdxLoad (ws : List Int) : List Int :=
  ws.map (fun v => v - 1)

/-- First chunk of dataset 1, the Python format string with six integer
slots (mfsub.py lines 310-311).  Note: no trailing separator or newline. -/
def ds1Chunk1 (isubcb isuboc nndb ndb nmz nn : Int) : String :=
  toString isubcb ++ " " ++ toString isuboc ++ " " ++ toString nndb ++ " " ++
    toString ndb ++ " " ++ toString nmz ++ " " ++ toString nn

/-- Second chunk of dataset 1 (mfsub.py lines 313-314): two floats and
three integers, newline-terminated.  The Python {} slot renders floats
with str. -/
def ds1Chunk2 (ac1 ac2 : PyFloat) (itmin idsave idrest : Int) : String :=
  ac1.pyrepr ++ " " ++ ac2.pyrepr ++ " " ++ toString itmin ++ " " ++
    toString idsave ++ " " ++ toString idrest ++ "\n"

/-- A layer-assignment line as written: one token tt+1 plus a space per
entry, then a newline (mfsub.py lines 315-322). -/
def layerLineStr (stored : List Int) : String :=
  String.join ((layerIdxWrite stored).map (fun v => toString v ++ " ")) ++ "\n"

/-- Round a decimal to at most six significant digits (half up).
Simplified numeric rendering support for the %.6g directive; exact for
values that already have at most six significant digits. -/
def sigRound6 (x : PyFloat) : PyFloat :=
  let n := x.m.natAbs
  let d := (toString n).length
  if d ≤ 6 then x
  else
    let k := d - 6
    let p := 10 ^ k
    let q := (n + p / 2) / p
    ⟨(if x.m < 0 then -(q : Int) else (q : Int)), x.e - k⟩

/-- Positional decimal rendering without a forced fractional part, as the
%g directive prints 1.0 as the single character 1.  Exponent forms of %g
are not modelled; no claim depends on this text. -/
def gBody (x : PyFloat) : String :=
  let y := pfNorm x.m x.e
  if y.e = 0 then toString y.m
  else
    let sign := if y.m < 0 then "-" else ""
    let n := y.m.natAbs
    sign ++ toString (n / 10 ^ y.e) ++ "." ++ zeroPad y.e (toString (n % 10 ^ y.e))

/-- The {:15.6g} format directive: six significant digits right-justified
in a field of width 15 (mfsub.py line 340). -/
def g15 (x : PyFloat) : String :=
  let s := gBody (sigRound6 x)
  String.mk (List.replicate (15 - s.length) ' ') ++ s

/-- Row k of the material-zone table dp, accessed as dp[k, 0..2]
(mfsub.py lines 340-341): a two-dimensional subscript on a None or flat
dp raises. -/
def dpRow : DpVal → Nat → Ex (PyFloat × PyFloat × PyFloat)
  | .noneV, _ => .error "TypeError: NoneType object is not subscriptable"
  | .flat _, _ => .error "IndexError: too many indices for array"
  | .mat rows, k =>
    match rows.get? k with
    | none => .error "IndexError: index out of range"
    | some r =>
      match r.get? 0, r.get? 1, r.get? 2 with
      | some a, some b, some c => .ok (a, b, c)
      | _, _, _ => .error "IndexError: index out of range"

/-- Datasets 0 through 14 of write_file (mfsub.py lines 304-349):
heading, dataset 1 in two writes with no separator between them, the two
layer-assignment lines (unconditionally dereferencing self.ln and
self.ldn, which are None when the counts are zero), then the
count-gated array blocks and the material-zone table. -/
def subWritePre (m : SubModel) : Ex (List Chunk) :=
  let c0 := [Chunk.txt (m.heading ++ "\n"),
             Chunk.txt (ds1Chunk1 m.isubcb m.isuboc m.nndb m.ndb m.nmz m.nn),
             Chunk.txt (ds1Chunk2 m.ac1 m.ac2 m.itmin m.idsave m.idrest)]
  exb (expectAttr m.ln "ln") fun ln =>
  let c2 := [Chunk.txt (layerLineStr ln)]
  exb (expectAttr m.ldn "ldn") fun ldn =>
  let c3 := [Chunk.txt (layerLineStr ldn)]
  exb (if m.ndb > 0 then
        exb (expectAttr m.rnb "rnb") fun rnb =>
        (List.range m.ndb.toNat).mapM (fun k =>
          exb (lget rnb k) fun a => .ok (Chunk.arr "rnb" k a))
      else .ok []) fun c4 =>
  exb (if m.nndb > 0 then
        exb (expectAttr m.hc "hc") fun hc =>
        exb (expectAttr m.sfe "sfe") fun sfe =>
        exb (expectAttr m.sfv "sfv") fun sfv =>
        exb (expectAttr m.com "com") fun com =>
        exb ((List.range m.nndb.toNat).mapM (fun k =>
          exb (lget hc k) fun a1 =>
          exb (lget sfe k) fun a2 =>
          exb (lget sfv k) fun a3 =>
          exb (lget com k) fun a4 =>
          .ok [Chunk.arr "hc" k a1, Chunk.arr "sfe" k a2,
               Chunk.arr "sfv" k a3, Chunk.arr "com" k a4])) fun quads =>
        .ok quads.flatten
      else .ok []) fun c58 =>
  exb (if m.ndb > 0 then
        (List.range m.nmz.toNat).mapM (fun k =>
          exb (dpRow m.dp k) fun r =>
          .ok (Chunk.txt (g15 r.1 ++ " " ++ g15 r.2.1 ++ " " ++ g15 r.2.2 ++
            "    #material zone " ++ toString (k + 1) ++ " data\n")))
      else .ok []) fun c9 =>
  exb (if m.ndb > 0 then
        exb (expectAttr m.dstart "dstart") fun dstart =>
        exb (expectAttr m.dhc "dhc") fun dhc =>
        exb (expectAttr m.dcom "dcom") fun dcom =>
        exb (expectAttr m.dz "dz") fun dz =>
        exb (expectAttr m.nz "nz") fun nz =>
        exb ((List.range m.ndb.toNat).mapM (fun k =>
          exb (lget dstart k) fun a1 =>
          exb (lget dhc k) fun a2 =>
          exb (lget dcom k) fun a3 =>
          exb (lget dz k) fun a4 =>
          exb (lget nz k) fun a5 =>
          .ok [Chunk.arr "dstart" k a1, Chunk.arr "dhc" k a2,
               Chunk.arr "dcom" k a3, Chunk.arr "dz" k a4,
               Chunk.arr "nz" k a5])) fun quints =>
        .ok quints.flatten
      else .ok []) fun c10 =>
  .ok (c0 ++ c2 ++ c3 ++ c4 ++ c58 ++ c9 ++ c10)

/-- In-place increment of the first four entries of an ids16 row, the
effect of t[0:4] += 1 on the row view (mfsub.py line 361). -/
def bump4 (row : List Int) : List Int :=
  (row.take 4).map (fun v => v + 1) ++ row.drop 4

/-- The dataset 16 line written for a (mutated) row (mfsub.py lines
362-364). -/
def ds16LineChunk (row : List Int) (k : Nat) : Chunk :=
  Chunk.txt (String.join (row.map (fun i => toString i ++ " ")) ++
    "  #dataset 16 isuboc " ++ toString (k + 1) ++ "\n")

/-- The dataset 16 loop (mfsub.py lines 359-364): for k in
range(isuboc), fetch row k, increment its first four entries in place,
and write the mutated row.  Returns the chunks and the table as left in
the model after the loop. -/
def ds16Loop : List (List Int) → Nat → Nat → Ex (List Chunk × List (List Int))
  | rows, _, 0 => .ok ([], rows)
  | rows, k, n + 1 =>
    match rows.get? k with
    | none => .error "IndexError: index out of range for dataset 16"
    | some row =>
      match ds16Loop (rows.set k (bump4 row)) (k + 1) n with
      | .error e => .error e
      | .ok (cs, rfin) => .ok (ds16LineChunk (bump4 row) k :: cs, rfin)

/-- Pure description of the mutation the dataset 16 loop performs on the
table: rows k, k+1, ..., k+n-1 get their first four entries incremented. -/
def bumpRows : List (List Int) → Nat → Nat → List (List Int)
  | rows, _, 0 => rows
  | rows, k, n + 1 =>
    match rows.get? k with
    | none => rows
    | some row => bumpRows (rows.set k (bump4 row)) (k + 1) n

/-- The dataset 15 line (mfsub.py lines 354-356). -/
def ids15Chunk (i15 : List Int) : Chunk :=
  Chunk.txt (String.join (i15.map (fun i => toString i ++ " ")) ++ "  #dataset 15\n")

/-- write_file body: datasets 0-14, then datasets 15 and 16 when
isuboc > 0 (mfsub.py lines 351-364).  Returns the output chunks and the
ids16 table as left in the model (the dataset 16 loop mutates it). -/
def subWriteBody (m : SubModel) : Ex (List Chunk × Option (List (List Int))) :=
  match subWritePre m with
  | .error e => .error e
  | .ok cs =>
    if m.isuboc > 0 then
      match m.ids15 with
      | none => .error "TypeError: NoneType ids15 is not iterable"
      | some i15 =>
        match m.ids16 with
        | none => .error "TypeError: NoneType ids16 is not subscriptable"
        | some rows =>
          match ds16Loop rows 0 m.isuboc.toNat with
          | .error e => .error e
          | .ok (cs16, rows') => .ok (cs ++ ids15Chunk i15 :: cs16, some rows')
    else .ok (cs, m.ids16)

/-- ModflowSub.write_file (mfsub.py lines 299-367): produces the output
chunks and the model as it stands after the call (identical except for
the in-place ids16 mutation). -/
def subWrite (m : SubModel) : Ex (List Chunk × SubModel) :=
  match subWriteBody m with
  | .error e => .error e
  | .ok (cs, rows?) => .ok (cs, { m with ids16 := rows? })

/-! ## SUB package: load (mfsub.py lines 370-575) -/

/-- The eleven scalars of dataset 1 in file order (mfsub.py lines
418-421), before the unit-number remapping. -/
structure Ds1 where
  isubcb : Int
  isuboc : Int
  nndb : Int
  ndb : Int
  nmz : Int
  nn : Int
  ac1 : PyFloat
  ac2 : PyFloat
  itmin : Int
  idsave : Int
  idrest : Int
deriving Repr, DecidableEq

/-- Parse the header line tokens into the eleven dataset 1 scalars
(mfsub.py lines 418-421): six ints, two floats, three ints, by position. -/
def parseDs1 (line : String) : Ex Ds1 :=
  let t := pySplit line
  exb (pyIntAt t 0) fun isubcb =>
  exb (pyIntAt t 1) fun isuboc =>
  exb (pyIntAt t 2) fun nndb =>
  exb (pyIntAt t 3) fun ndb =>
  exb (pyIntAt t 4) fun nmz =>
  exb (pyIntAt t 5) fun nn =>
  exb (pyFloatAt t 6) fun ac1 =>
  exb (pyFloatAt t 7) fun ac2 =>
  exb (pyIntAt t 8) fun itmin =>
  exb (pyIntAt t 9) fun idsave =>
  exb (pyIntAt t 10) fun idrest =>
  .ok ⟨isubcb, isuboc, nndb, ndb, nmz, nn, ac1, ac2, itmin, idsave, idrest⟩

/-- Consume four array blocks per index for the no-delay property
sequence hc, sfe, sfv, com (mfsub.py lines 456-486), collected by field. -/
def popQuads : Nat → List Rec → Ex ((List Nat × List Nat × List Nat × List Nat) × List Rec)
  | 0, rs => .ok (([], [], [], []), rs)
  | n + 1, rs =>
    exb (popArr rs) fun (a, rs1) =>
    exb (popArr rs1) fun (b, rs2) =>
    exb (popArr rs2) fun (c, rs3) =>
    exb (popArr rs3) fun (d, rs4) =>
    exb (popQuads n rs4) fun (q, rs5) =>
    .ok ((a :: q.1, b :: q.2.1, c :: q.2.2.1, d :: q.2.2.2), rs5)

/-- Consume five array blocks per index for the delay property sequence
dstart, dhc, dcom, dz, nz (mfsub.py lines 504-541), collected by field. -/
def popQuints : Nat → List Rec →
    Ex ((List Nat × List Nat × List Nat × List Nat × List Nat) × List Rec)
  | 0, rs => .ok (([], [], [], [], []), rs)
  | n + 1, rs =>
    exb (popArr rs) fun (a, rs1) =>
    exb (popArr rs1) fun (b, rs2) =>
    exb (popArr rs2) fun (c, rs3) =>
    exb (popArr rs3) fun (d, rs4) =>
    exb (popArr rs4) fun (e, rs5) =>
    exb (popQuints n rs5) fun (q, rs6) =>
    .ok ((a :: q.1, b :: q.2.1, c :: q.2.2.1, d :: q.2.2.2.1, e :: q.2.2.2.2), rs6)

/-- Read the nmz material-zone lines, three floats per line, trailing
tokens ignored (mfsub.py lines 490-497). -/
def readDpRows : Nat → List Rec → Ex (List (List PyFloat) × List Rec)
  | 0, rs => .ok ([], rs)
  | n + 1, rs =>
    exb (readLineE rs) fun (l, rs1) =>
    let t := pySplit l
    exb (pyFloatAt t 0) fun a =>
    exb (pyFloatAt t 1) fun b =>
    exb (pyFloatAt t 2) fun c =>
    exb (readDpRows n rs1) fun (rows, rs2) =>
    .ok ([a, b, c] :: rows, rs2)

/-- Subtract one from the first four entries of an ids16 row, the effect
of t[0:4] -= 1 on load (mfsub.py line 561). -/
def sub4 (row : List Int) : List Int :=
  (row.take 4).map (fun v => v - 1) ++ row.drop 4

/-- Read the isuboc dataset 16 rows of 17 integers, storing the first
four entries zero-based (mfsub.py lines 555-562). -/
def readIds16Rows : Nat → List Rec → Ex (List (List Int) × List Rec)
  | 0, rs => .ok ([], rs)
  | n + 1, rs =>
    exb (readLineE rs) fun (l, rs1) =>
    exb (read1dInts 17 l) fun row =>
    exb (readIds16Rows n rs1) fun (rows, rs2) =>
    .ok (sub4 row :: rows, rs2)

/-- Everything ModflowSub.load parses from the file before constructing
the package (mfsub.py lines 401-562). -/
structure SubParsed where
  isubcb : Int
  isuboc : Int
  nndb : Int
  ndb : Int
  nmz : Int
  nn : Int
  ac1 : PyFloat
  ac2 : PyFloat
  itmin : Int
  idsave : Int
  idrest : Int
  ln : Option (List Int)
  ldn : Option (List Int)
  rnb : Option (List Nat)
  hc : Option (List Nat)
  sfe : Option (List Nat)
  sfv : Option (List Nat)
  com : Option (List Nat)
  dp : Option (List (List PyFloat))
  dstart : Option (List Nat)
  dhc : Option (List Nat)
  dcom : Option (List Nat)
  dz : Option (List Nat)
  nz : Option (List Nat)
  ids15 : Option (List Int)
  ids16 : Option (List (List Int))
deriving Repr, DecidableEq

/-- The parsing phase of ModflowSub.load (mfsub.py lines 404-562):
comment skipping, dataset 1 with the positive-unit remapping (a positive
isubcb becomes 53, idsave 2052, and idrest 2053 after moving its entry
in the external-unit dictionary), then the count-gated sections in file
order.  extU models the keys of ext_unit_dict. -/
def subParse (extU : Option (List Int)) (recs : List Rec) : Ex SubParsed :=
  exb (skipComments recs) fun (line1, r0) =>
  exb (parseDs1 line1) fun d =>
  let isubcb := if d.isubcb > 0 then 53 else d.isubcb
  let idsave := if d.idsave > 0 then 2052 else d.idsave
  exb (if d.idrest > 0 then
        match extU with
        | none => .error "TypeError: ext_unit_dict is None"
        | some ks => if d.idrest ∈ ks then .ok (2053 : Int)
                     else .error "KeyError: idrest unit not in ext_unit_dict"
      else .ok d.idrest) fun idrest =>
  exb (if d.nndb > 0 then
        exb (readLineE r0) fun (l, rr) =>
        exb (read1dInts d.nndb.toNat l) fun ws =>
        .ok (some (layerIdxLoad ws), rr)
      else .ok (none, r0)) fun p1 =>
  exb (if d.ndb > 0 then
        exb (readLineE p1.2) fun (l, rr) =>
        exb (read1dInts d.ndb.toNat l) fun ws =>
        .ok (some (layerIdxLoad ws), rr)
      else .ok (none, p1.2)) fun p2 =>
  exb (if d.ndb > 0 then
        exb (popArrs d.ndb.toNat p2.2) fun (xs, rr) => .ok (some xs, rr)
      else .ok (none, p2.2)) fun p3 =>
  exb (if d.nndb > 0 then
        exb (popQuads d.nndb.toNat p3.2) fun (q, rr) =>
        .ok (some q.1, some q.2.1, some q.2.2.1, some q.2.2.2, rr)
      else .ok (none, none, none, none, p3.2)) fun p4 =>
  exb (if d.ndb > 0 then
        exb (readDpRows d.nmz.toNat p4.2.2.2.2) fun (rows, rr) => .ok (some rows, rr)
      else .ok (none, p4.2.2.2.2)) fun p5 =>
  exb (if d.ndb > 0 then
        exb (popQuints d.ndb.toNat p5.2) fun (q, rr) =>
        .ok (some q.1, some q.2.1, some q.2.2.1, some q.2.2.2.1, some q.2.2.2.2, rr)
      else .ok (none, none, none, none, none, p5.2)) fun p6 =>
  exb (if d.isuboc > 0 then
        exb (readLineE p6.2.2.2.2.2) fun (l, rr) =>
        exb (read1dInts 12 l) fun raw =>
        exb (readIds16Rows d.isuboc.toNat rr) fun (rows, rr2) =>
        .ok (some (remapIds15 raw), some rows, rr2)
      else .ok (none, none, p6.2.2.2.2.2)) fun p7 =>
  .ok { isubcb := isubcb, isuboc := d.isuboc, nndb := d.nndb, ndb := d.ndb,
        nmz := d.nmz, nn := d.nn, ac1 := d.ac1, ac2 := d.ac2, itmin := d.itmin,
        idsave := idsave, idrest := idrest,
        ln := p1.1, ldn := p2.1, rnb := p3.1,
        hc := p4.1, sfe := p4.2.1, sfv := p4.2.2.1, com := p4.2.2.2.1,
        dp := p5.1,
        dstart := p6.1, dhc := p6.2.1, dcom := p6.2.2.1, dz := p6.2.2.2.1,
        nz := p6.2.2.2.2.1,
        ids15 := p7.1, ids16 := p7.2.1 }

/-- Repackage the parsed values as constructor arguments, exactly as the
call at mfsub.py lines 568-573 passes them. -/
def subArgsOfParsed (p : SubParsed) : SubArgs :=
  { isubcb := p.isubcb, isuboc := p.isuboc, idsave := p.idsave, idrest := p.idrest,
    nndb := p.nndb, ndb := p.ndb, nmz := p.nmz, nn := p.nn,
    ac1 := p.ac1, ac2 := p.ac2, itmin := p.itmin,
    ln := match p.ln with | some xs => .arr xs | none => .noneV,
    ldn := match p.ldn with | some xs => .arr xs | none => .noneV,
    rnb := match p.rnb with | some xs => .arr xs | none => .noneV,
    hc := match p.hc with | some xs => .arr xs | none => .noneV,
    sfe := match p.sfe with | some xs => .arr xs | none => .noneV,
    sfv := match p.sfv with | some xs => .arr xs | none => .noneV,
    com := match p.com with | some xs => .arr xs | none => .noneV,
    dp := match p.dp with | some rows => .mat rows | none => .noneV,
    dstart := match p.dstart with | some xs => .arr xs | none => .noneV,
    dhc := match p.dhc with | some xs => .arr xs | none => .noneV,
    dcom := match p.dcom with | some xs => .arr xs | none => .noneV,
    dz := match p.dz with | some xs => .arr xs | none => .noneV,
    nz := match p.nz with | some xs => .arr xs | none => .noneV,
    ids15 := p.ids15,
    ids16 := match p.ids16 with | some rows => .rows rows | none => .noneA }

/-- ModflowSub.load with the host package registry threaded through:
the entire file is parsed first, and only then is the constructor
invoked, whose final statement registers the package with the host
(mfsub.py lines 564-575 and 293-294).  The registry is returned
unchanged on every failure path. -/
def subLoadT (nper : Int) (version : String) (extU : Option (List Int))
    (recs : List Rec) (host : List String) : Ex SubModel × List String :=
  match subParse extU recs with
  | .error e => (.error e, host)
  | .ok p =>
    match mkSub nper version (subArgsOfParsed p) with
    | .error e => (.error e, host)
    | .ok m => (.ok m, host ++ ["SUB"])

/-! ## UPW package: data model, write_file and load (mfupw.py) -/

/-- In-memory UPW package model: the fields stored by
ModflowUpw.__init__ (mfupw.py lines 10-37).  The per-layer flag vectors
are int arrays of length nlay (chani is wrapped with an int dtype at
mfupw.py line 24); the six property grids are delegated arrays. -/
structure UpwModel where
  heading : String
  iupwcb : Int
  hdry : PyFloat
  npupw : Int
  iphdry : Int
  options : String
  laytyp : List Int
  layavg : List Int
  chani : List Int
  layvka : List Int
  laywet : List Int
  hk : List Nat
  hani : List Nat
  vka : List Nat
  ss : List Nat
  sy : List Nat
  vkcb : List Nat
deriving Repr, DecidableEq

/-- ModflowUpw.__init__ (mfupw.py lines 10-37): broadcasts or keeps each
per-layer argument, sets npupw to zero unconditionally (line 20), and
builds the options string (lines 28-29). -/
def mkUpw (nlay : Nat) (iupwcb : Int) (hdry : PyFloat) (iphdry : Int)
    (noparcheck : Bool)
    (laytyp layavg chani layvka laywet : PyVal Int)
    (hk hani vka ss sy vkcb : PyVal Nat) : Ex UpwModel :=
  exb (utilMk nlay laytyp) fun laytyp =>
  exb (utilMk nlay layavg) fun layavg =>
  exb (utilMk nlay chani) fun chani =>
  exb (utilMk nlay layvka) fun layvka =>
  exb (utilMk nlay laywet) fun laywet =>
  exb (utilMk nlay hk) fun hk =>
  exb (utilMk nlay hani) fun hani =>
  exb (utilMk nlay vka) fun vka =>
  exb (utilMk nlay ss) fun ss =>
  exb (utilMk nlay sy) fun sy =>
  exb (utilMk nlay vkcb) fun vkcb =>
  .ok { heading := "# UPW for MODFLOW-NWT, generated by Flopy."
        iupwcb := iupwcb, hdry := hdry, npupw := 0, iphdry := iphdry
        options := if noparcheck then " NOPARCHECK  " else " "
        laytyp := laytyp, layavg := layavg, chani := chani
        layvka := layvka, laywet := laywet
        hk := hk, hani := hani, vka := vka, ss := ss, sy := sy, vkcb := vkcb }

/-- Sum of an int vector, the numpy .sum() on a per-layer flag array. -/
def sumInts (xs : List Int) : Int :=
  xs.foldl (fun acc v => acc + v) 0

/-- Right-justify a string in a field of ten characters, the Python
{:10d} directive. -/
def pad10 (s : String) : String :=
  String.mk (List.replicate (10 - s.length) ' ') ++ s

/-- The {:10.3G} directive for hdry, modelled as the padded decimal
rendering (exponent forms of %G are not modelled; no claim depends on
this text). -/
def fmtG10 (x : PyFloat) : String :=
  pad10 (gBody (sigRound6 x))

/-- Rendering of a per-layer int flag vector by the delegated array
codec (the .string property of util_2d at mfupw.py lines 48-56).
Modelled from the spec: the header block renders each flag vector as one
whitespace-separated line. -/
def flagLine (xs : List Int) : String :=
  String.join (xs.map (fun v => toString v ++ " ")) ++ "\n"

/-- The header chunks written before the LAYWET check: heading, item 1,
and the five per-layer flag lines (mfupw.py lines 44-56). -/
def upwHeaderChunks (m : UpwModel) : List Chunk :=
  [Chunk.txt (m.heading ++ "\n"),
   Chunk.txt (pad10 (toString m.iupwcb) ++ fmtG10 m.hdry ++ pad10 (toString m.npupw) ++
     pad10 (toString m.iphdry) ++ m.options ++ "\n"),
   Chunk.txt (flagLine m.laytyp),
   Chunk.txt (flagLine m.layavg),
   Chunk.txt (flagLine m.chani),
   Chunk.txt (flagLine m.layvka),
   Chunk.txt (flagLine m.laywet)]

/-- The hani block for layer k, included when chani[k] < 1 (mfupw.py
lines 64-65). -/
def haniPartE (m : UpwModel) (k : Nat) (chk : Int) : Ex (List Chunk) :=
  if chk < 1 then exb (lget m.hani k) fun hv => .ok [Chunk.arr "hani" k hv]
  else .ok []

/-- The sy sub-block inside the transient branch: included only for a
convertible layer type (mfupw.py lines 69-70). -/
def syPartE (m : UpwModel) (k : Nat) (ltk : Int) : Ex (List Chunk) :=
  if ltk ≠ 0 then exb (lget m.sy k) fun yv => .ok [Chunk.arr "sy" k yv]
  else .ok []

/-- The transient-only sub-sequence for layer k: the ss block always,
then sy for a convertible layer type (mfupw.py lines 67-70); nothing
when the simulation is steady state. -/
def ssPartE (m : UpwModel) (k : Nat) : Bool → Ex (List Chunk)
  | false => .ok []
  | true =>
    exb (lget m.ss k) fun sv =>
    exb (lget m.laytyp k) fun ltk =>
    exb (syPartE m k ltk) fun syPart =>
    .ok (Chunk.arr "ss" k sv :: syPart)

/-- The confining-bed block, included when laycbd[k] > 0 (mfupw.py lines
71-72). -/
def vkcbPartE (m : UpwModel) (k : Nat) (cbk : Int) : Ex (List Chunk) :=
  if cbk > 0 then exb (lget m.vkcb k) fun vv => .ok [Chunk.arr "vkcb" k vv]
  else .ok []

/-- The stray laywet entry, written when both laywet[k] and laytyp[k]
are nonzero (mfupw.py lines 73-74); reachable only with negative laywet
entries since the positive-sum check has already passed. -/
def lwPartE (m : UpwModel) (k : Nat) (lwk : Int) : Ex (List Chunk) :=
  if lwk ≠ 0 then
    exb (lget m.laytyp k) fun ltk =>
    (if ltk ≠ 0 then .ok [Chunk.arr "laywet" k 0] else .ok [])
  else .ok []

/-- The grid-array blocks written for one layer k (mfupw.py lines
62-74): hk, hani when chani[k] < 1, vka, the transient-only sub-sequence
ss / sy, vkcb when the layer has a confining bed, and the stray laywet
entry.  List accesses follow the guard structure of the source, so a
skipped branch performs no access. -/
def layerChunksE (m : UpwModel) (tr : Bool) (laycbd : List Int) (k : Nat) :
    Ex (List Chunk) :=
  exb (lget m.hk k) fun hkk =>
  exb (lget m.chani k) fun chk =>
  exb (haniPartE m k chk) fun haniPart =>
  exb (lget m.vka k) fun vkk =>
  exb (ssPartE m k tr) fun ssPart =>
  exb (lget laycbd k) fun cbk =>
  exb (vkcbPartE m k cbk) fun vkcbPart =>
  exb (lget m.laywet k) fun lwk =>
  exb (lwPartE m k lwk) fun lwPart =>
  .ok (Chunk.arr "hk" k hkk :: haniPart ++ Chunk.arr "vka" k vkk :: ssPart ++
    vkcbPart ++ lwPart)

/-- The per-layer write loop (mfupw.py lines 62-74), emitting the chunks
written before an error, paired with the pending error if any. -/
def upwLayersW (m : UpwModel) (tr : Bool) (laycbd : List Int) :
    Nat → Nat → List Chunk × Option String
  | _, 0 => ([], none)
  | k, n + 1 =>
    match layerChunksE m tr laycbd k with
    | .error e => ([], some e)
    | .ok cs =>
      (cs ++ (upwLayersW m tr laycbd (k + 1) n).1,
       (upwLayersW m tr laycbd (k + 1) n).2)

/-- ModflowUpw.write_file (mfupw.py lines 39-75): heading, item 1 and
the five flag lines are written first; the LAYWET check (lines 58-60)
raises before any grid-array block; otherwise the transient flag is
derived from the DIS collaborator steady flags (line 61) and the layer
loop runs.  Returns the chunks actually written and the pending error. -/
def upwWrite (nlay : Nat) (steady : List Bool) (laycbd : List Int)
    (m : UpwModel) : List Chunk × Option String :=
  if sumInts m.laywet > 0 then (upwHeaderChunks m, some "LAYWET should be 0 for UPW")
  else
    (upwHeaderChunks m ++ (upwLayersW m (!steady.all id) laycbd 0 nlay).1,
     (upwLayersW m (!steady.all id) laycbd 0 nlay).2)

/-- The scalars and flag vectors parsed by ModflowUpw.load before the
array section (mfupw.py lines 117-171). -/
structure UpwHeader where
  iupwcb : Int
  hdry : PyFloat
  npupw : Int
  iphdry : Int
  noparcheck : Bool
  laytyp : List Int
  layavg : List Int
  chani : List PyFloat
  layvka : List Int
  laywet : List Int
deriving Repr, DecidableEq

/-- Substring test on character lists. -/
def subSeqIn (needle : List Char) : List Char → Bool
  | [] => needle.isEmpty
  | c :: cs => List.isPrefixOf needle (c :: cs) || subSeqIn needle cs

/-- Uppercase an ASCII character, the effect of str.upper() on the
option tokens scanned here. -/
def upChar (c : Char) : Char :=
  if 'a' ≤ c && c ≤ 'z' then Char.ofNat (c.toNat - 32) else c

/-- Read one flag line and convert its first nlay tokens to ints, as
np.array(t[0:nlay], dtype=np.int) does; a shorter line yields a shorter
vector without error (mfupw.py lines 140-166). -/
def flagLineInts (nlay : Nat) (s : String) : Ex (List Int) :=
  ((pySplit s).take nlay).mapM (fun t =>
    match pyInt t with
    | some v => .ok v
    | none => .error ("ValueError: invalid literal for int with base 10: " ++ t))

/-- Read one flag line of floats (CHANI, np.float32 at line 154). -/
def flagLineFloats (nlay : Nat) (s : String) : Ex (List PyFloat) :=
  ((pySplit s).take nlay).mapM (fun t =>
    match pyFloat t with
    | some v => .ok v
    | none => .error ("ValueError: could not convert string to float: " ++ t))

/-- The header phase of ModflowUpw.load (mfupw.py lines 116-166):
comment skipping, item 1 with the cell-by-cell unit remapping to 53 and
the NOPARCHECK option scan, then the five per-layer flag lines. -/
def upwHeadParse (nlay : Nat) (recs : List Rec) : Ex (UpwHeader × List Rec) :=
  exb (skipComments recs) fun (line1, r0) =>
  let t := pySplit line1
  exb (pyIntAt t 0) fun iupwcb =>
  exb (pyFloatAt t 1) fun hdry =>
  exb (pyIntAt t 2) fun npupw =>
  exb (pyIntAt t 3) fun iphdry =>
  let iupwcb := if iupwcb ≠ 0 then 53 else iupwcb
  let noparcheck := (t.drop 3).any (fun s => subSeqIn "NOPARCHECK".toList (s.toList.map upChar))
  exb (readLineE r0) fun (l2, r1) =>
  exb (flagLineInts nlay l2) fun laytyp =>
  exb (readLineE r1) fun (l3, r2) =>
  exb (flagLineInts nlay l3) fun layavg =>
  exb (readLineE r2) fun (l4, r3) =>
  exb (flagLineFloats nlay l4) fun chani =>
  exb (readLineE r3) fun (l5, r4) =>
  exb (flagLineInts nlay l5) fun layvka =>
  exb (readLineE r4) fun (l6, r5) =>
  exb (flagLineInts nlay l6) fun laywet =>
  .ok ({ iupwcb := iupwcb, hdry := hdry, npupw := npupw, iphdry := iphdry,
         noparcheck := noparcheck,
         laytyp := laytyp, layavg := layavg, chani := chani,
         layvka := layvka, laywet := laywet }, r5)

/-- The grid arrays read for one layer k on load (mfupw.py lines
186-244), mirroring the conditional structure of the write loop; unread
slots keep the placeholder 0 from the [0] * nlay initializers. -/
def upwLayerLoad (h : UpwHeader) (tr : Bool) (laycbd : List Int) (k : Nat)
    (recs : List Rec) : Ex ((Nat × Nat × Nat × Nat × Nat × Nat) × List Rec) :=
  exb (popArr recs) fun (hkk, r1) =>
  exb (lget h.chani k) fun chk =>
  exb (if chk.ltv ⟨1, 0⟩ then
        exb (popArr r1) fun (hn, r2) => .ok (hn, r2)
      else .ok (0, r1)) fun haniP =>
  exb (popArr haniP.2) fun (vkk, r3) =>
  exb (if tr then
        exb (popArr r3) fun (sv, r4) =>
        exb (lget h.laytyp k) fun ltk =>
        exb (if ltk ≠ 0 then
              exb (popArr r4) fun (yv, r5) => .ok (yv, r5)
            else .ok (0, r4)) fun syP =>
        .ok (sv, syP.1, syP.2)
      else .ok (0, 0, r3)) fun ssP =>
  exb (lget laycbd k) fun cbk =>
  exb (if cbk > 0 then
        exb (popArr ssP.2.2) fun (vv, r6) => .ok (vv, r6)
      else .ok (0, ssP.2.2)) fun vkcbP =>
  .ok ((hkk, haniP.1, vkk, ssP.1, ssP.2.1, vkcbP.1), vkcbP.2)

/-- The load array loop over layers 0 to n-1, collecting the six
property lists (mfupw.py lines 180-244). -/
def upwArraysLoad (h : UpwHeader) (tr : Bool) (laycbd : List Int) :
    Nat → Nat → List Rec →
    Ex ((List Nat × List Nat × List Nat × List Nat × List Nat × List Nat) × List Rec)
  | _, 0, rs => .ok (([], [], [], [], [], []), rs)
  | k, n + 1, rs =>
    exb (upwLayerLoad h tr laycbd k rs) fun (v, rs1) =>
    exb (upwArraysLoad h tr laycbd (k + 1) n rs1) fun (q, rs2) =>
    .ok ((v.1 :: q.1, v.2.1 :: q.2.1, v.2.2.1 :: q.2.2.1, v.2.2.2.1 :: q.2.2.2.1,
          v.2.2.2.2.1 :: q.2.2.2.2.1, v.2.2.2.2.2 :: q.2.2.2.2.2), rs2)

/-- ModflowUpw.load (mfupw.py lines 77-254): header phase, then the
LAYWET check (lines 169-171), then the parameter branch, which
unconditionally evaluates the unbound name nplpf when npupw > 0
(line 176, a NameError on every file that reaches it), then the array
loop and the constructor call. -/
def upwLoad (nlay : Nat) (steady : List Bool) (laycbd : List Int)
    (recs : List Rec) : Ex UpwModel :=
  exb (upwHeadParse nlay recs) fun (h, rest) =>
  if sumInts h.laywet > 0 then .error "LAYWET should be 0 for UPW"
  else if h.npupw > 0 then .error "NameError: name nplpf is not defined"
  else
    let tr := !steady.all id
    exb (upwArraysLoad h tr laycbd 0 nlay rest) fun (q, _) =>
    mkUpw nlay h.iupwcb h.hdry h.iphdry h.noparcheck
      (.arr h.laytyp) (.arr h.layavg) (.arr (h.chani.map PyFloat.toI))
      (.arr h.layvka) (.arr h.laywet)
      (.arr q.1) (.arr q.2.1) (.arr q.2.2.1) (.arr q.2.2.2.1)
      (.arr q.2.2.2.2.1) (.arr q.2.2.2.2.2)

/-! ## Claim theorems -/

/-- Claim C2.  Loading the header line with the eleven tokens
0 0 1 1 1 20 0.0 0.2 5 0 0 parses, in fixed order, isubcb=0, isuboc=0,
nndb=1, ndb=1, nmz=1, nn=20, ac1=0.0, ac2=0.2, itmin=5, idsave=0,
idrest=0 (first conjunct, confirming the parse half of the claim).  The
write half fails: writing the header back from that state produces ten
whitespace-separated tokens, with 20 and 0.0 fused into the single token
200.0, because write_file emits dataset 1 as two format strings with no
separator between them (mfsub.py lines 310-313); the claimed eleven
tokens are not reproduced (second and third conjuncts). -/
theorem sub_header_scenario_parse_then_write :
    parseDs1 "0 0 1 1 1 20 0.0 0.2 5 0 0" =
      .ok ⟨0, 0, 1, 1, 1, 20, ⟨0, 1⟩, ⟨2, 1⟩, 5, 0, 0⟩ ∧
    pySplit (ds1Chunk1 0 0 1 1 1 20 ++ ds1Chunk2 ⟨0, 1⟩ ⟨2, 1⟩ 5 0 0) =
      ["0", "0", "1", "1", "1", "200.0", "0.2", "5", "0", "0"] ∧
    pySplit (ds1Chunk1 0 0 1 1 1 20 ++ ds1Chunk2 ⟨0, 1⟩ ⟨2, 1⟩ 5 0 0) ≠
      ["0", "0", "1", "1", "1", "20", "0.0", "0.2", "5", "0", "0"] :=
  ⟨rfl, rfl, by decide⟩

/-- Constructor arguments for a representative valid SUB model: default
counts nndb=ndb=nmz=1, a well-formed (nmz, 3) material-zone table. -/
def c1Args : SubArgs := { dp := .mat [[⟨1, 6⟩, ⟨6, 6⟩, ⟨6, 4⟩]] }

/-- Claim C1.  The round trip write(load(write(M))) = write(M) fails for
every valid model: write_file succeeds on the representative model
(first conjunct), but loading the text it wrote fails, because the
header line is written as two concatenated format strings with no
separator (mfsub.py lines 310-313), fusing the nn and ac1 tokens into
200.0, which load then feeds to int() (mfsub.py line 419).  So
load(write(M)) raises for every model and the claimed equality never
even gets to the second write. -/
theorem sub_roundtrip_reload_raises :
    exOk (exb (mkSub 3 "mf2005" c1Args) fun m => subWrite m) = true ∧
    (exb (mkSub 3 "mf2005" c1Args) fun m =>
      exb (subWrite m) fun p => subParse none (assemble p.1)) =
      .error "ValueError: invalid literal for int with base 10: 200.0" :=
  ⟨rfl, rfl⟩

/-- Claim C3.  With header counts nndb=0 and ndb=0, load consumes zero
grid-array blocks and zero layer-assignment lines (the input below
consists of the header line only, with no array blocks at all, and load
succeeds), and every dependent field of the resulting model is absent
(None), including the material-zone table (first conjunct).  The write
half of the claim fails on the code: write_file unconditionally
dereferences self.ln.array (mfsub.py line 315), which is None when
nndb=0, so writing such a model raises instead of emitting zero records
(second conjunct). -/
theorem sub_zero_counts_absent_write_raises :
    ((subLoadT 3 "mf2005" none [Rec.line "0 0 0 0 1 20 0.0 0.2 5 0 0"] []).1.map
      (fun m => (m.ln, m.hc, m.sfe, m.sfv, m.com, m.ldn, m.rnb, m.dstart, m.dhc,
                 m.dcom, m.dz, m.nz, m.dp, m.ids15, m.ids16)) =
      .ok (none, none, none, none, none, none, none, none, none, none, none, none,
           DpVal.noneV, none, none)) ∧
    (exb (subLoadT 3 "mf2005" none [Rec.line "0 0 0 0 1 20 0.0 0.2 5 0 0"] []).1
      (fun m => subWrite m) = .error "AttributeError: NoneType field ln") :=
  ⟨rfl, rfl⟩

/-- Claim C5.  Constructing a SUB model with isuboc=1 and ids16=None
(and nper stress periods supplied by the host model) stores exactly one
output-control row [0, nper-1, 0, 9999] followed by thirteen flags all
equal to one, and isuboc stays 1 (mfsub.py lines 278-285). -/
theorem sub_default_ids16_single_row (nper : Int) (version : String) :
    (mkSub nper version ({ isuboc := 1 } : SubArgs)).map
      (fun m => (m.isuboc, m.ids16)) =
      .ok (1, some [[0, nper - 1, 0, 9999] ++ List.replicate 13 1]) := rfl

/-- Claim C6.  The one-based/zero-based layer-index conversion is its
own round trip: load stores each parsed one-based value v as v - 1
(layerIdxLoad, mfsub.py lines 436 and 442, used by subParse), and write
emits each stored value plus 1 (layerIdxWrite, mfsub.py lines 317 and
321, used by subWritePre), so writing what was loaded restores the
original one-based values. -/
theorem sub_layer_index_roundtrip (ws : List Int) :
    layerIdxWrite (layerIdxLoad ws) = ws := by
  induction ws with
  | nil => rfl
  | cons a t ih =>
    simp only [layerIdxWrite, layerIdxLoad, List.map_cons] at ih ⊢
    rw [ih]
    congr 1
    omega

/-- Claim C8.  Registration with the host happens only as the last step
of the constructor, which load invokes only after the whole file has
parsed (mfsub.py lines 564-575 and 293-294): whenever the load pipeline
fails, the host package registry is returned unchanged. -/
theorem sub_load_failure_no_registration (nper : Int) (version : String)
    (extU : Option (List Int)) (recs : List Rec) (host : List String)
    (h : exOk (subLoadT nper version extU recs host).1 = false) :
    (subLoadT nper version extU recs host).2 = host := by
  unfold subLoadT at h ⊢
  cases hp : subParse extU recs with
  | error e => simp only [hp]
  | ok p =>
    simp only [hp] at h ⊢
    cases hm : mkSub nper version (subArgsOfParsed p) with
    | error e => simp only [hm]
    | ok m => simp only [hm] at h; simp at h

/-- Witness for C8 at a concrete failing input: loading an empty file
fails at the comment-skipping readline, and the host registry is
untouched. -/
theorem sub_load_failure_no_registration_witness :
    exOk (subLoadT 3 "mf2005" none [] ["DIS"]).1 = false ∧
    (subLoadT 3 "mf2005" none [] ["DIS"]).2 = ["DIS"] :=
  ⟨rfl, sub_load_failure_no_registration 3 "mf2005" none [] ["DIS"] rfl⟩

/-- Claim C10.  Any file whose UPW header declares npupw > 0 can never
load: once the header phase has parsed, load either stops at the LAYWET
check or reaches the parameter branch, which unconditionally evaluates
the unbound name nplpf (mfupw.py line 176) and so raises regardless of
the remaining file content. -/
theorem upw_npupw_positive_never_loads (nlay : Nat) (steady : List Bool)
    (laycbd : List Int) (recs : List Rec) (h : UpwHeader) (rest : List Rec)
    (hp : upwHeadParse nlay recs = .ok (h, rest)) (hn : h.npupw > 0) :
    exOk (upwLoad nlay steady laycbd recs) = false := by
  unfold upwLoad
  simp only [hp, exb_ok]
  by_cases hw : sumInts h.laywet > 0
  · rw [if_pos hw]; rfl
  · rw [if_neg hw, if_pos hn]; rfl

/-- Witness for C10 at a concrete input: a one-layer file whose header
declares one UPW parameter. -/
theorem upw_npupw_positive_never_loads_witness :
    upwHeadParse 1 [Rec.line "50 0.0 1 0", Rec.line "0", Rec.line "0",
        Rec.line "1.0", Rec.line "0", Rec.line "0"] =
      .ok (⟨53, ⟨0, 1⟩, 1, 0, false, [0], [0], [⟨10, 1⟩], [0], [0]⟩, []) ∧
    (1 : Int) > 0 ∧
    exOk (upwLoad 1 [true] [0] [Rec.line "50 0.0 1 0", Rec.line "0", Rec.line "0",
        Rec.line "1.0", Rec.line "0", Rec.line "0"]) = false :=
  ⟨by rfl, by decide,
   upw_npupw_positive_never_loads 1 [true] [0]
     [Rec.line "50 0.0 1 0", Rec.line "0", Rec.line "0",
      Rec.line "1.0", Rec.line "0", Rec.line "0"]
     ⟨53, ⟨0, 1⟩, 1, 0, false, [0], [0], [⟨10, 1⟩], [0], [0]⟩ [] (by rfl) (by decide)⟩

/-- Constructor arguments for the C9 counterexample model: output
control on, defaulted ids16, well-formed material-zone table. -/
def c9Args : SubArgs := { isuboc := 1, dp := .mat [[⟨1, 6⟩, ⟨6, 6⟩, ⟨6, 4⟩]] }

/-- Counterexample to claim C9 as stated: for the model constructed with
isuboc=1 and defaulted ids16 (five stress periods), calling write_file
does not leave the model fields unchanged — the first four columns of
the ids16 row change from 0, 4, 0, 9999 to 1, 5, 1, 10000, because the
slice increment t[0:4] += 1 at mfsub.py line 361 mutates the stored
numpy row through a view. -/
theorem sub_write_mutates_ids16 :
    ((mkSub 5 "mf2005" c9Args).map (fun m => m.ids16) =
      .ok (some [[0, 4, 0, 9999, 1, 1, 1, 1, 1, 1, 1, 1, 1, 1, 1, 1, 1]])) ∧
    ((exb (mkSub 5 "mf2005" c9Args) fun m => subWrite m).map (fun p => p.2.ids16) =
      .ok (some [[1, 5, 1, 10000, 1, 1, 1, 1, 1, 1, 1, 1, 1, 1, 1, 1, 1]])) ∧
    some [[(0 : Int), 4, 0, 9999, 1, 1, 1, 1, 1, 1, 1, 1, 1, 1, 1, 1, 1]] ≠
      some [[(1 : Int), 5, 1, 10000, 1, 1, 1, 1, 1, 1, 1, 1, 1, 1, 1, 1, 1]] :=
  ⟨rfl, rfl, by decide⟩

/-- The dataset 16 loop leaves the table exactly as bumpRows describes:
rows k to k+n-1 get their first four entries incremented. -/
theorem ds16Loop_leaves_bumpRows :
    ∀ (n k : Nat) (rows : List (List Int)) (cs : List Chunk)
      (rfin : List (List Int)),
      ds16Loop rows k n = .ok (cs, rfin) → rfin = bumpRows rows k n := by
  intro n
  induction n with
  | zero =>
    intro k rows cs rfin h
    unfold ds16Loop at h
    cases h
    rfl
  | succ n ih =>
    intro k rows cs rfin h
    unfold ds16Loop at h
    split at h
    · simp at h
    · rename_i row hg
      split at h
      · simp at h
      · rename_i cs2 rfin2 hrec
        cases h
        unfold bumpRows
        rw [hg]
        exact ih (k + 1) (rows.set k (bump4 row)) _ _ hrec

/-- On success the write body returns the input table with rows 0 to
isuboc-1 bumped (or the untouched ids16 when isuboc is nonpositive,
where bumpRows with count zero is the identity). -/
theorem subWriteBody_ids16 (m : SubModel) (cs : List Chunk)
    (rows? : Option (List (List Int)))
    (h : subWriteBody m = .ok (cs, rows?)) :
    rows? = m.ids16.map (fun rows => bumpRows rows 0 m.isuboc.toNat) := by
  unfold subWriteBody at h
  split at h
  · simp at h
  · rename_i cs0 hpre
    split at h
    · rename_i ho
      split at h
      · simp at h
      · rename_i i15 h15
        split at h
        · simp at h
        · rename_i rows h16
          split at h
          · simp at h
          · rename_i cs16 rows2 hloop
            cases h
            rw [h16]
            exact congrArg some
              (ds16Loop_leaves_bumpRows m.isuboc.toNat 0 rows cs16 rows2 hloop)
    · rename_i ho
      cases h
      have hz : m.isuboc.toNat = 0 := by omega
      rw [hz]
      cases m.ids16 with
      | none => rfl
      | some rows => rfl

/-- Claim C9, amended.  write_file is not a read-only observation of the
model: on success it leaves every field except ids16 unchanged, and
increments the first four entries of each of the first isuboc ids16 rows
by one, in place (mfsub.py lines 359-364); writing twice therefore emits
different dataset 16 lines. -/
theorem sub_write_frame_except_ids16 (m : SubModel) (cs : List Chunk)
    (m' : SubModel) (h : subWrite m = .ok (cs, m')) :
    m' = { m with ids16 := m.ids16.map (fun rows => bumpRows rows 0 m.isuboc.toNat) } := by
  unfold subWrite at h
  cases hb : subWriteBody m with
  | error e => rw [hb] at h; cases h
  | ok pr =>
    obtain ⟨cs0, rowsq⟩ := pr
    rw [hb] at h
    cases h
    have hrows := subWriteBody_ids16 m _ _ hb
    rw [hrows]

/-- Concrete model for the C9 witness: output control on with one
ids16 row, no interbed systems. -/
def c9Wm : SubModel :=
  { heading := "# SUB file", isubcb := 0, isuboc := 1, idsave := 0, idrest := 0,
    nndb := 0, ndb := 0, nmz := 0, nn := 20, ac1 := ⟨0, 1⟩, ac2 := ⟨2, 1⟩, itmin := 5,
    ln := some [], hc := none, sfe := none, sfv := none, com := none,
    ldn := some [], rnb := none, dstart := none, dhc := none, dcom := none,
    dz := none, nz := none, dp := .noneV,
    ids15 := some [0, 0, 0, 0, 0, 0, 0, 0, 0, 0, 0, 0],
    ids16 := some [[0, 0, 0, 9999, 1, 1, 1, 1, 1, 1, 1, 1, 1, 1, 1, 1, 1]] }

/-- The chunks write_file emits for the C9 witness model. -/
def c9Wout : List Chunk :=
  [Chunk.txt "# SUB file\n",
   Chunk.txt "0 1 0 0 0 20",
   Chunk.txt "0.0 0.2 5 0 0\n",
   Chunk.txt "\n",
   Chunk.txt "\n",
   Chunk.txt "0 0 0 0 0 0 0 0 0 0 0 0   #dataset 15\n",
   Chunk.txt "1 1 1 10000 1 1 1 1 1 1 1 1 1 1 1 1 1   #dataset 16 isuboc 1\n"]

/-- The model as left after the C9 witness write: ids16 bumped. -/
def c9Wm2 : SubModel :=
  { c9Wm with ids16 := some [[1, 1, 1, 10000, 1, 1, 1, 1, 1, 1, 1, 1, 1, 1, 1, 1, 1]] }

/-- Witness for the amended C9 at a concrete input. -/
theorem sub_write_frame_except_ids16_witness :
    subWrite c9Wm = .ok (c9Wout, c9Wm2) ∧
    c9Wm2 = { c9Wm with
      ids16 := c9Wm.ids16.map (fun rows => bumpRows rows 0 c9Wm.isuboc.toNat) } :=
  ⟨rfl, sub_write_frame_except_ids16 c9Wm c9Wout c9Wm2 rfl⟩

/-- Does a chunk carry a delegated array block with the given label,
written at the given layer index? -/
def chMatch (lab : String) (k : Nat) : Chunk → Bool
  | .arr l i _ => l == lab && i == k
  | .txt _ => false

/-- Does the output contain an array block with the given label written
for the given layer? -/
def hasArr (cs : List Chunk) (lab : String) (k : Nat) : Bool :=
  cs.any (chMatch lab k)

theorem hasArr_cons (c : Chunk) (cs : List Chunk) (lab : String) (k : Nat) :
    hasArr (c :: cs) lab k = (chMatch lab k c || hasArr cs lab k) := by
  simp [hasArr]

theorem hasArr_append (a b : List Chunk) (lab : String) (k : Nat) :
    hasArr (a ++ b) lab k = (hasArr a lab k || hasArr b lab k) := by
  simp [hasArr]

theorem lget_ok_of_get? {α : Type} (xs : List α) (k : Nat) (v : α)
    (h : xs.get? k = some v) : lget xs k = .ok v := by
  unfold lget
  rw [h]

theorem haniPartE_hasArr (m : UpwModel) (k : Nat) (chk : Int) (cs : List Chunk)
    (h : haniPartE m k chk = .ok cs) (lab : String) (kk : Nat) :
    hasArr cs lab kk = (decide (chk < 1) && (("hani" : String) == lab) && (k == kk)) := by
  unfold haniPartE at h
  by_cases hc : chk < 1
  · rw [if_pos hc] at h
    cases hg : lget m.hani k with
    | error e => rw [hg, exb_error] at h; cases h
    | ok hv =>
      rw [hg, exb_ok] at h
      cases h
      simp [hasArr, chMatch, decide_eq_true hc]
  · rw [if_neg hc] at h
    cases h
    simp [hasArr, decide_eq_false hc]

theorem syPartE_hasArr (m : UpwModel) (k : Nat) (ltk : Int) (cs : List Chunk)
    (h : syPartE m k ltk = .ok cs) (lab : String) (kk : Nat) :
    hasArr cs lab kk = (decide (ltk ≠ 0) && (("sy" : String) == lab) && (k == kk)) := by
  unfold syPartE at h
  by_cases hc : ltk ≠ 0
  · rw [if_pos hc] at h
    cases hg : lget m.sy k with
    | error e => rw [hg, exb_error] at h; cases h
    | ok yv =>
      rw [hg, exb_ok] at h
      cases h
      simp [hasArr, chMatch, decide_eq_true hc]
  · rw [if_neg hc] at h
    cases h
    simp [hasArr, decide_eq_false hc]

theorem ssPartE_hasArr (m : UpwModel) (k : Nat) (tr : Bool) (cs : List Chunk)
    (ltk : Int) (h : ssPartE m k tr = .ok cs) (hlt : m.laytyp.get? k = some ltk)
    (lab : String) (kk : Nat) :
    hasArr cs lab kk = (tr && (((("ss" : String) == lab) && (k == kk)) ||
      (decide (ltk ≠ 0) && (("sy" : String) == lab) && (k == kk)))) := by
  cases tr with
  | false => cases h; simp [hasArr]
  | true =>
    simp only [ssPartE] at h
    cases hs : lget m.ss k with
    | error e => rw [hs, exb_error] at h; cases h
    | ok sv =>
      rw [hs, exb_ok] at h
      rw [lget_ok_of_get? m.laytyp k ltk hlt, exb_ok] at h
      cases hy : syPartE m k ltk with
      | error e => rw [hy, exb_error] at h; cases h
      | ok syP =>
        rw [hy, exb_ok] at h
        cases h
        rw [hasArr_cons, syPartE_hasArr m k ltk syP hy lab kk]
        simp [chMatch]

theorem vkcbPartE_hasArr (m : UpwModel) (k : Nat) (cbk : Int) (cs : List Chunk)
    (h : vkcbPartE m k cbk = .ok cs) (lab : String) (kk : Nat) :
    hasArr cs lab kk = (decide (cbk > 0) && (("vkcb" : String) == lab) && (k == kk)) := by
  unfold vkcbPartE at h
  by_cases hc : cbk > 0
  · rw [if_pos hc] at h
    cases hg : lget m.vkcb k with
    | error e => rw [hg, exb_error] at h; cases h
    | ok vv =>
      rw [hg, exb_ok] at h
      cases h
      simp [hasArr, chMatch, decide_eq_true hc]
  · rw [if_neg hc] at h
    cases h
    simp [hasArr, decide_eq_false hc]

theorem lwPartE_hasArr (m : UpwModel) (k : Nat) (lwk : Int) (cs : List Chunk)
    (h : lwPartE m k lwk = .ok cs) :
    ∃ b : Bool, ∀ (lab : String) (kk : Nat),
      hasArr cs lab kk = (b && (("laywet" : String) == lab) && (k == kk)) := by
  unfold lwPartE at h
  by_cases hc : lwk ≠ 0
  · rw [if_pos hc] at h
    cases hg : lget m.laytyp k with
    | error e => rw [hg, exb_error] at h; cases h
    | ok ltk =>
      rw [hg, exb_ok] at h
      by_cases hl : ltk ≠ 0
      · rw [if_pos hl] at h
        cases h
        exact ⟨true, fun lab kk => by simp [hasArr, chMatch]⟩
      · rw [if_neg hl] at h
        cases h
        exact ⟨false, fun lab kk => by simp [hasArr]⟩
  · rw [if_neg hc] at h
    cases h
    exact ⟨false, fun lab kk => by simp [hasArr]⟩

/-- A successful per-layer write decomposes into its conditional parts. -/
theorem layerChunksE_shape (m : UpwModel) (tr : Bool) (laycbd : List Int)
    (k : Nat) (lk : List Chunk) (h : layerChunksE m tr laycbd k = .ok lk) :
    ∃ (hkk : Nat) (chk : Int) (haniP : List Chunk) (vkk : Nat) (ssP : List Chunk)
      (cbk : Int) (vkcbP : List Chunk) (lwk : Int) (lwP : List Chunk),
      haniPartE m k chk = .ok haniP ∧ ssPartE m k tr = .ok ssP ∧
      vkcbPartE m k cbk = .ok vkcbP ∧ lwPartE m k lwk = .ok lwP ∧
      lk = Chunk.arr "hk" k hkk :: haniP ++ Chunk.arr "vka" k vkk :: ssP ++
        vkcbP ++ lwP := by
  unfold layerChunksE at h
  cases h1 : lget m.hk k with
  | error e => rw [h1, exb_error] at h; cases h
  | ok hkk =>
  rw [h1, exb_ok] at h
  cases h2 : lget m.chani k with
  | error e => rw [h2, exb_error] at h; cases h
  | ok chk =>
  rw [h2, exb_ok] at h
  cases h3 : haniPartE m k chk with
  | error e => rw [h3, exb_error] at h; cases h
  | ok haniP =>
  rw [h3, exb_ok] at h
  cases h4 : lget m.vka k with
  | error e => rw [h4, exb_error] at h; cases h
  | ok vkk =>
  rw [h4, exb_ok] at h
  cases h5 : ssPartE m k tr with
  | error e => rw [h5, exb_error] at h; cases h
  | ok ssP =>
  rw [h5, exb_ok] at h
  cases h6 : lget laycbd k with
  | error e => rw [h6, exb_error] at h; cases h
  | ok cbk =>
  rw [h6, exb_ok] at h
  cases h7 : vkcbPartE m k cbk with
  | error e => rw [h7, exb_error] at h; cases h
  | ok vkcbP =>
  rw [h7, exb_ok] at h
  cases h8 : lget m.laywet k with
  | error e => rw [h8, exb_error] at h; cases h
  | ok lwk =>
  rw [h8, exb_ok] at h
  cases h9 : lwPartE m k lwk with
  | error e => rw [h9, exb_error] at h; cases h
  | ok lwP =>
  rw [h9, exb_ok] at h
  cases h
  exact ⟨hkk, chk, haniP, vkk, ssP, cbk, vkcbP, lwk, lwP, h3, rfl, h7, h9, rfl⟩

theorem ssPartE_other (m : UpwModel) (k : Nat) (tr : Bool) (cs : List Chunk)
    (h : ssPartE m k tr = .ok cs) (lab : String) (kk : Nat) (hne : k ≠ kk) :
    hasArr cs lab kk = false := by
  have hkf : (k == kk) = false := by rw [beq_eq_false_iff_ne]; exact hne
  cases tr with
  | false => cases h; simp [hasArr]
  | true =>
    simp only [ssPartE] at h
    cases hs : lget m.ss k with
    | error e => rw [hs, exb_error] at h; cases h
    | ok sv =>
    rw [hs, exb_ok] at h
    cases hl : lget m.laytyp k with
    | error e => rw [hl, exb_error] at h; cases h
    | ok ltk =>
    rw [hl, exb_ok] at h
    cases hy : syPartE m k ltk with
    | error e => rw [hy, exb_error] at h; cases h
    | ok syP =>
    rw [hy, exb_ok] at h
    cases h
    rw [hasArr_cons, syPartE_hasArr m k ltk syP hy lab kk]
    simp [chMatch, hkf]

/-- Everything written for layer j carries layer index j. -/
theorem layerChunksE_other_idx (m : UpwModel) (tr : Bool) (laycbd : List Int)
    (j : Nat) (lk : List Chunk) (h : layerChunksE m tr laycbd j = .ok lk)
    (lab : String) (kk : Nat) (hne : j ≠ kk) : hasArr lk lab kk = false := by
  have hjf : (j == kk) = false := by rw [beq_eq_false_iff_ne]; exact hne
  obtain ⟨hkk, chk, haniP, vkk, ssP, cbk, vkcbP, lwk, lwP, h3, h5, h7, h9, rfl⟩ :=
    layerChunksE_shape m tr laycbd j lk h
  obtain ⟨b, el⟩ := lwPartE_hasArr m j lwk lwP h9
  simp [hasArr_cons, hasArr_append, chMatch,
    haniPartE_hasArr m j chk haniP h3 lab kk,
    ssPartE_other m j tr ssP h5 lab kk hne,
    vkcbPartE_hasArr m j cbk vkcbP h7 lab kk,
    el lab kk, hjf]

/-- Within layer k, the ss block is present exactly under the transient
flag, and the sy block exactly under transient together with a
convertible layer type. -/
theorem layerChunksE_ss_sy (m : UpwModel) (tr : Bool) (laycbd : List Int)
    (k : Nat) (lk : List Chunk) (ltk : Int)
    (h : layerChunksE m tr laycbd k = .ok lk)
    (hlt : m.laytyp.get? k = some ltk) :
    hasArr lk "ss" k = tr ∧ hasArr lk "sy" k = (tr && decide (ltk ≠ 0)) := by
  obtain ⟨hkk, chk, haniP, vkk, ssP, cbk, vkcbP, lwk, lwP, h3, h5, h7, h9, rfl⟩ :=
    layerChunksE_shape m tr laycbd k lk h
  obtain ⟨b, el⟩ := lwPartE_hasArr m k lwk lwP h9
  constructor
  · simp [hasArr_cons, hasArr_append, chMatch,
      haniPartE_hasArr m k chk haniP h3 "ss" k,
      ssPartE_hasArr m k tr ssP ltk h5 hlt "ss" k,
      vkcbPartE_hasArr m k cbk vkcbP h7 "ss" k, el "ss" k]
  · simp [hasArr_cons, hasArr_append, chMatch,
      haniPartE_hasArr m k chk haniP h3 "sy" k,
      ssPartE_hasArr m k tr ssP ltk h5 hlt "sy" k,
      vkcbPartE_hasArr m k cbk vkcbP h7 "sy" k, el "sy" k]

/-- Layers below the loop start contribute nothing at index kk. -/
theorem upwLayersW_low (m : UpwModel) (tr : Bool) (laycbd : List Int) :
    ∀ (n s : Nat) (cs : List Chunk) (err : Option String),
      upwLayersW m tr laycbd s n = (cs, err) →
      ∀ (kk : Nat), kk < s → ∀ lab, hasArr cs lab kk = false := by
  intro n
  induction n with
  | zero =>
    intro s cs err h kk hks lab
    unfold upwLayersW at h
    cases h
    rfl
  | succ n ih =>
    intro s cs err h kk hks lab
    unfold upwLayersW at h
    cases hl : layerChunksE m tr laycbd s with
    | error e => rw [hl] at h; cases h; rfl
    | ok c0 =>
      rw [hl] at h
      cases h
      rw [hasArr_append,
        layerChunksE_other_idx m tr laycbd s c0 hl lab kk (by omega),
        ih (s + 1) (upwLayersW m tr laycbd (s + 1) n).1
          (upwLayersW m tr laycbd (s + 1) n).2 rfl kk (by omega) lab]
      rfl

/-- On a successful layer loop, the array blocks present at index kk are
exactly those of the layer-kk emission. -/
theorem upwLayersW_ok_mem (m : UpwModel) (tr : Bool) (laycbd : List Int) :
    ∀ (n s : Nat) (cs : List Chunk),
      upwLayersW m tr laycbd s n = (cs, none) →
      ∀ (kk : Nat), s ≤ kk → kk < s + n →
      ∃ lk, layerChunksE m tr laycbd kk = .ok lk ∧
        ∀ lab, hasArr cs lab kk = hasArr lk lab kk := by
  intro n
  induction n with
  | zero => intro s cs h kk h1 h2; omega
  | succ n ih =>
    intro s cs h kk h1 h2
    unfold upwLayersW at h
    cases hl : layerChunksE m tr laycbd s with
    | error e => rw [hl] at h; cases h
    | ok c0 =>
      rw [hl] at h
      rcases hT : upwLayersW m tr laycbd (s + 1) n with ⟨t1, t2⟩
      rw [hT] at h
      injection h with ha hb
      subst ha
      subst hb
      by_cases hks : kk = s
      · subst hks
        refine ⟨c0, hl, fun lab => ?_⟩
        rw [hasArr_append,
          upwLayersW_low m tr laycbd n (kk + 1) t1 none hT kk (by omega) lab]
        exact Bool.or_false _
      · obtain ⟨lk, hlk, hmem⟩ := ih (s + 1) t1 (by rw [hT]) kk (by omega) (by omega)
        refine ⟨lk, hlk, fun lab => ?_⟩
        rw [hasArr_append,
          layerChunksE_other_idx m tr laycbd s c0 hl lab kk (fun hh => hks hh.symm),
          hmem lab]
        exact Bool.false_or _

/-- Claim C4.  Whenever write_file completes, its output contains a
storage-coefficient (ss) array block for layer k if and only if the
simulation is transient (the DIS steady flags are not all set), and a
specific-yield (sy) block for layer k if and only if transient and
laytyp[k] is nonzero; in the steady case both are omitted even though
the ss and sy fields are populated in the model (mfupw.py lines 61-70). -/
theorem upw_write_ss_sy_iff_transient (nlay : Nat) (steady : List Bool)
    (laycbd : List Int) (m : UpwModel) (k : Nat) (ltk : Int) (out : List Chunk)
    (hok : upwWrite nlay steady laycbd m = (out, none))
    (hlt : m.laytyp.get? k = some ltk) (hk : k < nlay) :
    hasArr out "ss" k = !steady.all id ∧
    hasArr out "sy" k = ((!steady.all id) && decide (ltk ≠ 0)) := by
  unfold upwWrite at hok
  by_cases hw : sumInts m.laywet > 0
  · rw [if_pos hw] at hok
    injection hok with ha hb
    cases hb
  · rw [if_neg hw] at hok
    rcases hT : upwLayersW m (!steady.all id) laycbd 0 nlay with ⟨t1, t2⟩
    rw [hT] at hok
    injection hok with ha hb
    subst ha
    subst hb
    obtain ⟨lk, hlk, hmem⟩ :=
      upwLayersW_ok_mem m (!steady.all id) laycbd nlay 0 t1 hT k (by omega) (by omega)
    have hdrf : ∀ lab, hasArr (upwHeaderChunks m) lab k = false := by
      intro lab
      simp [upwHeaderChunks, hasArr, chMatch]
    obtain ⟨hss, hsy⟩ := layerChunksE_ss_sy m (!steady.all id) laycbd k lk ltk hlk hlt
    constructor
    · rw [hasArr_append, hdrf, hmem "ss", hss]
      exact Bool.false_or _
    · rw [hasArr_append, hdrf, hmem "sy", hsy]
      exact Bool.false_or _

/-- A concrete one-layer UPW model with every property field populated,
convertible layer type. -/
def c4m : UpwModel :=
  { heading := "# UPW for MODFLOW-NWT, generated by Flopy.", iupwcb := 0,
    hdry := ⟨0, 1⟩, npupw := 0, iphdry := 0, options := " ",
    laytyp := [1], layavg := [0], chani := [1], layvka := [0], laywet := [0],
    hk := [7], hani := [8], vka := [9], ss := [10], sy := [11], vkcb := [12] }

/-- What write_file emits for c4m under a transient simulation. -/
def c4out : List Chunk :=
  [Chunk.txt "# UPW for MODFLOW-NWT, generated by Flopy.\n",
   Chunk.txt "         0         0         0         0 \n",
   Chunk.txt "1 \n", Chunk.txt "0 \n", Chunk.txt "1 \n", Chunk.txt "0 \n",
   Chunk.txt "0 \n",
   Chunk.arr "hk" 0 7, Chunk.arr "vka" 0 9, Chunk.arr "ss" 0 10,
   Chunk.arr "sy" 0 11]

/-- What write_file emits for c4m under a steady-state simulation: the
populated ss and sy fields are omitted. -/
def c4outSteady : List Chunk :=
  [Chunk.txt "# UPW for MODFLOW-NWT, generated by Flopy.\n",
   Chunk.txt "         0         0         0         0 \n",
   Chunk.txt "1 \n", Chunk.txt "0 \n", Chunk.txt "1 \n", Chunk.txt "0 \n",
   Chunk.txt "0 \n",
   Chunk.arr "hk" 0 7, Chunk.arr "vka" 0 9]

/-- Witness for C4 at concrete inputs: the same model written once under
a transient simulation (ss and sy present) and once steady (both
absent). -/
theorem upw_write_ss_sy_iff_transient_witness :
    upwWrite 1 [false] [0] c4m = (c4out, none) ∧
    c4m.laytyp.get? 0 = some 1 ∧ (0 : Nat) < 1 ∧
    (hasArr c4out "ss" 0 = !([false].all id) ∧
     hasArr c4out "sy" 0 = ((!([false].all id)) && decide ((1 : Int) ≠ 0))) ∧
    upwWrite 1 [true] [0] c4m = (c4outSteady, none) ∧
    (hasArr c4outSteady "ss" 0 = !([true].all id) ∧
     hasArr c4outSteady "sy" 0 = ((!([true].all id)) && decide ((1 : Int) ≠ 0))) :=
  ⟨by rfl, by rfl, by decide,
   upw_write_ss_sy_iff_transient 1 [false] [0] c4m 0 1 c4out (by rfl) (by rfl)
     (by decide),
   by rfl,
   upw_write_ss_sy_iff_transient 1 [true] [0] c4m 0 1 c4outSteady (by rfl) (by rfl)
     (by decide)⟩

/-- No chunk in the list is a delegated array block. -/
def noArrChunks (cs : List Chunk) : Bool := cs.all (fun c => !c.isArr)

/-- Claim C7.  The unsupported-configuration error for a positive laywet
sum is raised before any grid-array block is touched.  On write
(mfupw.py lines 57-60): the output when the check fires is exactly the
heading, item 1 and the five flag lines, which contain no array block.
On load (mfupw.py lines 167-171): for any file whose header phase parses
with a positive laywet sum, load returns the LAYWET error no matter what
records follow the five flag lines. -/
theorem upw_laywet_check_is_eager :
    (∀ (nlay : Nat) (steady : List Bool) (laycbd : List Int) (m : UpwModel),
      sumInts m.laywet > 0 →
      upwWrite nlay steady laycbd m =
        (upwHeaderChunks m, some "LAYWET should be 0 for UPW") ∧
      noArrChunks (upwHeaderChunks m) = true) ∧
    (∀ (nlay : Nat) (steady : List Bool) (laycbd : List Int) (recs : List Rec)
      (h : UpwHeader) (rest : List Rec),
      upwHeadParse nlay recs = .ok (h, rest) → sumInts h.laywet > 0 →
      upwLoad nlay steady laycbd recs = .error "LAYWET should be 0 for UPW") := by
  constructor
  · intro nlay steady laycbd m hw
    constructor
    · unfold upwWrite
      rw [if_pos hw]
    · simp [noArrChunks, upwHeaderChunks, Chunk.isArr]
  · intro nlay steady laycbd recs h rest hp hw
    unfold upwLoad
    simp only [hp, exb_ok]
    rw [if_pos hw]

/-- A concrete one-layer UPW model with a positive laywet entry. -/
def c7m : UpwModel :=
  { heading := "# UPW for MODFLOW-NWT, generated by Flopy.", iupwcb := 0,
    hdry := ⟨0, 1⟩, npupw := 0, iphdry := 0, options := " ",
    laytyp := [0], layavg := [0], chani := [1], layvka := [0], laywet := [1],
    hk := [0], hani := [0], vka := [0], ss := [0], sy := [0], vkcb := [0] }

/-- A concrete one-layer UPW file whose laywet line holds a 1. -/
def c7File : List Rec :=
  [Rec.line "0 0.0 0 0", Rec.line "0", Rec.line "0", Rec.line "1.0",
   Rec.line "0", Rec.line "1"]

/-- Witness for C7 at concrete inputs. -/
theorem upw_laywet_check_is_eager_witness :
    sumInts c7m.laywet > 0 ∧
    upwWrite 1 [true] [0] c7m =
      (upwHeaderChunks c7m, some "LAYWET should be 0 for UPW") ∧
    noArrChunks (upwHeaderChunks c7m) = true ∧
    upwHeadParse 1 c7File =
      .ok (⟨0, ⟨0, 1⟩, 0, 0, false, [0], [0], [⟨10, 1⟩], [0], [1]⟩, []) ∧
    sumInts ([1] : List Int) > 0 ∧
    upwLoad 1 [true] [0] c7File = .error "LAYWET should be 0 for UPW" :=
  ⟨by decide,
   (upw_laywet_check_is_eager.1 1 [true] [0] c7m (by decide)).1,
   (upw_laywet_check_is_eager.1 1 [true] [0] c7m (by decide)).2,
   by rfl, by decide,
   upw_laywet_check_is_eager.2 1 [true] [0] c7File
     ⟨0, ⟨0, 1⟩, 0, 0, false, [0], [0], [⟨10, 1⟩], [0], [1]⟩ [] (by rfl) (by decide)⟩
